import Mathlib

/-!
Shallow embedding of the work-records system's authorization, edit-window,
rate-resolution and work-entry lifecycle code.

Conventions of the embedding:
* SQLite tables are Lean lists of row structures; `REAL` columns are modelled
  as `ℚ` (the JavaScript arithmetic on the values involved is exact for the
  decimal values the system stores), `INTEGER` ids as `ℕ`, nullable columns as
  `Option`.
* `work_date` and the current date are modelled as integers (day numbers);
  the SQL comparison `work_date >= date('now', '-N days')` on ISO date strings
  is order-isomorphic to integer comparison on day numbers.
* A JavaScript request body field that is absent, `null`, the empty string, or
  (where the source normalizes with `Number`) non-numeric is modelled as
  `none`: the source treats all of these alike on the paths formalised here.
* Each Express handler is a pure function from the database state and request
  data to `Except ApiError (newState × response)`; the source performs its
  single mutating `db.run` only after every validation has passed, so an
  `error` result corresponds to a request that wrote nothing.
-/

/-- Effect of a per-user permission override (`user_permissions.effect`). -/
inductive OverrideEffect
  | allow
  | deny
deriving DecidableEq

/-- Row of the `permissions` table. -/
structure PermissionRow where
  id : Nat
  code : String
  is_active : Bool
deriving DecidableEq

/-- Row of the `role_permissions` join table. -/
structure RolePermissionRow where
  role_id : Nat
  permission_id : Nat
deriving DecidableEq

/-- Row of the `user_permissions` overrides table. -/
structure UserPermissionRow where
  user_id : Nat
  permission_id : Nat
  effect : OverrideEffect
deriving DecidableEq

/-- Row of the `roles` table (fields the engine reads). -/
structure RoleRow where
  id : Nat
  company_id : Option Nat
  code : String
  work_entries_days_limit : Option Int
deriving DecidableEq

/-- Row of the `users` table (fields the engine reads). -/
structure UserRow where
  id : Nat
  company_id : Option Nat
  role_id : Option Nat
  is_admin : Nat
deriving DecidableEq

/-- Row of the `user_settings` table. -/
structure UserSettingsRow where
  user_id : Nat
  work_entries_days_limit_override : Option Int
deriving DecidableEq

/-- Row of the `jobs` table. -/
structure JobRow where
  id : Nat
  company_id : Nat
  job_code : String
  job_type : String
  normal_price : ℚ
  is_active : Nat
deriving DecidableEq

/-- Row of the `job_wages` table (wage rate for a job × tier pair). -/
structure JobWageRow where
  company_id : Nat
  job_id : Nat
  tier_id : Nat
  wage_rate : ℚ
deriving DecidableEq

/-- Row of the `work_entries` table. -/
structure WorkEntryRow where
  id : Nat
  company_id : Nat
  worker_id : Nat
  job_id : Nat
  work_date : Int
  job_no1 : String
  job_no2 : Option String
  amount : ℚ
  rate : ℚ
  pay : ℚ
  customer_rate : ℚ
  customer_total : ℚ
  fees_collected : Option ℚ
  wage_tier_id : Option Nat
  wage_rate : ℚ
  wage_total : ℚ
  is_bank : Bool
  note : Option String
deriving DecidableEq

/-- The relational store (`data.sqlite`).  `next_entry_id` models the
AUTOINCREMENT counter of `work_entries`. -/
structure DB where
  users : List UserRow
  roles : List RoleRow
  permissions : List PermissionRow
  role_permissions : List RolePermissionRow
  user_permissions : List UserPermissionRow
  user_settings : List UserSettingsRow
  jobs : List JobRow
  job_wages : List JobWageRow
  work_entries : List WorkEntryRow
  next_entry_id : Nat
deriving DecidableEq

/-- The empty database. -/
def DB.empty : DB :=
  { users := [], roles := [], permissions := [], role_permissions := []
    user_permissions := [], user_settings := [], jobs := [], job_wages := []
    work_entries := [], next_entry_id := 1 }

/-- The user object stored in the session (`req.session.user`). -/
structure SessionUser where
  id : Nat
  company_id : Option Nat
  is_admin : Nat
deriving DecidableEq

/-- Request context: the fields of `req` the work-entry routes read.
`query_companyId` models `req.query.companyId`, `body_company_id` models
`req.body.company_id`, `session_activeCompanyId` models
`req.session.activeCompanyId`, `session_user` models `req.session.user`. -/
structure Req where
  query_companyId : Option Nat
  body_company_id : Option Nat
  session_activeCompanyId : Option Nat
  session_user : Option SessionUser
deriving DecidableEq

/-- The SQL query shared by both `hasPermission` implementations and by
`requirePermission`:

    SELECT 1 FROM users u
    JOIN roles r ON r.id = u.role_id
    JOIN role_permissions rp ON rp.role_id = r.id
    JOIN permissions p ON p.id = rp.permission_id
    WHERE u.id = ? AND p.code = ? AND p.is_active = 1

Note that this query never touches the `user_permissions` overrides table. -/
def rolePermQuery (db : DB) (userId : Nat) (code : String) : Bool :=
  db.users.any fun u =>
    decide (u.id = userId) &&
    db.roles.any fun r =>
      decide (u.role_id = some r.id) &&
      db.role_permissions.any fun rp =>
        decide (rp.role_id = r.id) &&
        db.permissions.any fun p =>
          decide (p.id = rp.permission_id) && decide (p.code = code) && p.is_active

namespace Middleware

/-- `hasPermission(userId, code)` from `src/middleware/permission.js`:
resolves the role-grant join only (no admin bypass, no overrides). -/
def hasPermission (db : DB) (userId : Nat) (code : String) : Bool :=
  rolePermQuery db userId code

/-- Outcome of the `requirePermission(code)` middleware. -/
inductive GateResult
  | next
  | unauthorized
  | forbidden (code : String)
deriving DecidableEq

/-- Decision logic of `requirePermission(code)` from
`src/middleware/permission.js`: missing session user (or falsy id) is 401;
`user.is_admin === 1` passes immediately; otherwise the role-grant join
decides. -/
def requirePermission (db : DB) (user : Option SessionUser) (code : String) :
    GateResult :=
  match user with
  | none => .unauthorized
  | some u =>
    if u.id = 0 then .unauthorized
    else if u.is_admin = 1 then .next
    else if rolePermQuery db u.id code then .next
    else .forbidden code

end Middleware

namespace Server

/-- `canSeeRates` computation of the `/dashboard` handler in `server.js`:
admin flag short-circuits to `true`, otherwise the middleware
`hasPermission` is consulted. -/
def dashboardCanSeeRates (db : DB) (u : SessionUser) : Bool :=
  if u.is_admin = 1 then true
  else Middleware.hasPermission db u.id "WORK_ENTRY_EDIT_RATES"

/-- `canFilterPayType` computation of the `/reports` handler in `server.js`. -/
def reportsCanFilterPayType (db : DB) (u : SessionUser) : Bool :=
  if u.is_admin = 1 then true
  else Middleware.hasPermission db u.id "REPORT_FILTER_PAYTYPE"

end Server

namespace WorkEntryRoutes

/-- `getCompanyId(req)` from `workEntryRoutes.js`: query, then body, then
`session.activeCompanyId`, then the session user's company, then 1. -/
def getCompanyId (req : Req) : Nat :=
  match req.query_companyId with
  | some c => c
  | none =>
    match req.body_company_id with
    | some c => c
    | none =>
      match req.session_activeCompanyId with
      | some c => c
      | none =>
        match req.session_user.bind (fun u => u.company_id) with
        | some c => c
        | none => 1

/-- Local `hasPermission(req, code, cb)` from `workEntryRoutes.js`: falsy
session user id denies, admin flag allows, otherwise the role-grant join
decides.  The `user_permissions` overrides table is not consulted. -/
def hasPermission (db : DB) (user : Option SessionUser) (code : String) : Bool :=
  match user with
  | none => false
  | some u =>
    if u.id = 0 then false
    else if u.is_admin = 1 then true
    else rolePermQuery db u.id code

/-- The `us.work_entries_days_limit_override AS override_limit` column of the
`getDaysLimitForUser` query (LEFT JOIN of `user_settings` on the user id). -/
def overrideLimitOf (db : DB) (uid : Nat) : Option Int :=
  (db.user_settings.find? (fun s => decide (s.user_id = uid))).bind
    (fun s => s.work_entries_days_limit_override)

/-- The `r.work_entries_days_limit AS role_limit` column of the same query. -/
def roleLimitOf (db : DB) (urow : UserRow) : Option Int :=
  urow.role_id.bind fun rid =>
    (db.roles.find? (fun r => decide (r.id = rid))).bind
      (fun r => r.work_entries_days_limit)

/-- `getDaysLimitForUser(req, cb)` from `workEntryRoutes.js`.  No session user
or an admin yields `none` (unlimited).  Otherwise the row

    SELECT us.work_entries_days_limit_override AS override_limit,
           r.work_entries_days_limit AS role_limit
    FROM users u LEFT JOIN user_settings us ON us.user_id = u.id
                 LEFT JOIN roles r ON r.id = u.role_id
    WHERE u.id = ?

is read; the override column takes precedence whenever it is non-null, and a
resulting limit that is not strictly positive collapses to `none`. -/
def getDaysLimitForUser (db : DB) (user : Option SessionUser) : Option Int :=
  match user with
  | none => none
  | some u =>
    if u.id = 0 then none
    else if u.is_admin = 1 then none
    else
      match db.users.find? (fun x => decide (x.id = u.id)) with
      | none => none
      | some urow =>
        let limit : Option Int :=
          match WorkEntryRoutes.overrideLimitOf db urow.id with
          | some v => some v
          | none => roleLimitOf db urow
        match limit with
        | none => none
        | some l => if l ≤ 0 then none else some l

/-- The date filter `we.work_date >= date('now', '-N days')` applied when a
days limit is in force; `none` (no limit) accepts every date.  The boundary
is inclusive. -/
def withinWindow (workDate : Int) (daysLimit : Option Int) (today : Int) : Bool :=
  match daysLimit with
  | none => true
  | some n => decide (today - n ≤ workDate)

end WorkEntryRoutes

/-- Error taxonomy of the embedded handlers.  Each constructor corresponds to
one family of 4xx responses of the source; the restricted-mode rate errors
("Failed to resolve rates…", "Invalid customer rate for this job.",
"Invalid wage rate for this wage tier.") are `RateResolutionFailed`, the
privileged-mode ones ("Invalid customer_rate." / "Invalid wage_rate.") are
`InvalidRate`. -/
inductive ApiError
  | MissingRequired
  | MissingRates
  | InvalidAmount
  | InvalidIdCompany
  | InvalidJobReference
  | DuplicateJobReference
  | OutOfEditWindow
  | RateEditForbidden
  | RateResolutionFailed
  | InvalidRate
  | InvalidFees
  | NotFound
deriving DecidableEq

namespace JobRoutes

/-- Body of `PUT /api/jobs/:id` after the handler's normalization:
`Number(normal_price || 0)`, `Number(is_active ?? 1)`, and
`normalizeWageRates` turning `wage_rates` into `(tier_id, wage_rate)` pairs. -/
structure JobUpdateBody where
  job_code : String
  job_type : String
  normal_price : ℚ
  is_active : Nat
  wage_rates : List (Nat × ℚ)
deriving DecidableEq

/-- The `INSERT … ON CONFLICT(job_id, tier_id) DO UPDATE SET wage_rate`
upsert run for each normalized wage-rate pair of `PUT /api/jobs/:id`. -/
def upsertJobWage (db : DB) (companyId jobId tierId : Nat) (rate : ℚ) : DB :=
  if db.job_wages.any (fun w => decide (w.job_id = jobId ∧ w.tier_id = tierId)) then
    { db with job_wages := db.job_wages.map fun w =>
        if decide (w.job_id = jobId ∧ w.tier_id = tierId) then
          { w with wage_rate := rate }
        else w }
  else
    { db with job_wages := db.job_wages ++ [⟨companyId, jobId, tierId, rate⟩] }

/-- `PUT /api/jobs/:id` from `jobRoutes.js`: updates the `jobs` row scoped by
id and company (404 when no row matches) and then upserts every supplied
`job_wages` rate.  `companyId` is the handler's resolved company context. -/
def updateJob (db : DB) (companyId jobId : Nat) (b : JobUpdateBody) :
    Except ApiError DB :=
  if db.jobs.any (fun j => decide (j.id = jobId ∧ j.company_id = companyId)) then
    let db1 := { db with jobs := db.jobs.map (fun j =>
      if decide (j.id = jobId ∧ j.company_id = companyId) then
        { j with job_code := b.job_code, job_type := b.job_type,
                 normal_price := b.normal_price, is_active := b.is_active }
      else j) }
    .ok (b.wage_rates.foldl (fun d tr => upsertJobWage d companyId jobId tr.1 tr.2) db1)
  else .error .NotFound

end JobRoutes

namespace WorkEntryRoutes

/-- Body of `POST /api/work-entries` (fields as destructured by the handler). -/
structure CreateBody where
  company_id : Option Nat
  worker_id : Option Nat
  job_code : Option String
  amount : Option ℚ
  is_bank : Option Nat
  customer_rate : Option ℚ
  customer_total : Option ℚ
  wage_tier_id : Option Nat
  wage_rate : Option ℚ
  wage_total : Option ℚ
  rate : Option ℚ
  pay : Option ℚ
  job_no1 : Option String
  job_no2 : Option String
  work_date : Option Int
  fees_collected : Option ℚ
  note : Option String
deriving DecidableEq

/-- `POST /api/work-entries` from `workEntryRoutes.js`.  Note that the route
is registered with NO `requirePermission` middleware and the handler performs
no permission check of its own: the function does not consult the session
user beyond company resolution.  On success returns the new state, the
inserted id (`this.lastID`) and the final `fees_collected`. -/
def createWorkEntry (db : DB) (req : Req) (b : CreateBody) :
    Except ApiError (DB × Nat × ℚ) :=
  let companyId := getCompanyId req
  let finalCompanyId : Nat :=
    match b.company_id with
    | some c => if c = 0 then (if companyId = 0 then 1 else companyId) else c
    | none => if companyId = 0 then 1 else companyId
  match b.worker_id, b.job_code, b.amount, b.job_no1, b.work_date with
  | some workerId, some jcode, some amt, some jno1, some wdate =>
    match b.customer_rate, b.customer_total, b.wage_rate, b.wage_total with
    | some cRate, some cTotal, some wRate, some wTotal =>
      let finalFees := match b.fees_collected with | some f => f | none => cTotal
      match db.jobs.find? (fun j =>
          decide (j.company_id = finalCompanyId ∧ j.job_code = jcode)) with
      | none => .error .InvalidJobReference
      | some job =>
        if db.work_entries.any (fun e =>
            decide (e.company_id = finalCompanyId ∧ e.job_no1 = jno1)) then
          .error .DuplicateJobReference
        else
          let entry : WorkEntryRow :=
            { id := db.next_entry_id, company_id := finalCompanyId,
              worker_id := workerId, job_id := job.id, work_date := wdate,
              job_no1 := jno1, job_no2 := b.job_no2, amount := amt,
              rate := match b.rate with | some r => r | none => wRate,
              pay := match b.pay with | some p => p | none => wTotal,
              customer_rate := cRate, customer_total := cTotal,
              fees_collected := some finalFees, wage_tier_id := b.wage_tier_id,
              wage_rate := wRate, wage_total := wTotal,
              is_bank := decide (b.is_bank = some 1), note := b.note }
          .ok ({ db with work_entries := db.work_entries ++ [entry],
                         next_entry_id := db.next_entry_id + 1 },
               db.next_entry_id, finalFees)
    | _, _, _, _ => .error .MissingRates
  | _, _, _, _, _ => .error .MissingRequired

/-- `GET /api/work-entries` from `workEntryRoutes.js`: rows of the resolved
company, additionally date-filtered when a days limit is in force.  The
embedding abstracts the display-only LEFT JOIN columns and the ORDER BY;
the returned row set is the filter below. -/
def listWorkEntries (db : DB) (req : Req) (today : Int) : List WorkEntryRow :=
  let companyId := getCompanyId req
  let daysLimit := getDaysLimitForUser db req.session_user
  db.work_entries.filter fun e =>
    decide (e.company_id = companyId) && withinWindow e.work_date daysLimit today

/-- Body of `PUT /api/work-entries/:id` (fields as destructured). -/
structure UpdateBody where
  worker_id : Option Nat
  job_code : Option String
  amount : Option ℚ
  is_bank : Option Nat
  customer_rate : Option ℚ
  wage_tier_id : Option Nat
  wage_rate : Option ℚ
  job_no1 : Option String
  job_no2 : Option String
  work_date : Option Int
  note : Option String
  fees_collected : Option ℚ
deriving DecidableEq

/-- Successful response of `PUT /api/work-entries/:id`. -/
structure UpdateOk where
  changes : Nat
  canEditRates : Bool
  fees_collected : ℚ
deriving DecidableEq

/-- `doUpdate` from `PUT /api/work-entries/:id`: the final `UPDATE` statement,
shared by the restricted and privileged branches.  Fees default to the final
customer total; the `UNIQUE (company_id, job_no1)` constraint surfaces as
`DuplicateJobReference`; zero affected rows surfaces as `NotFound`.  The
legacy `rate`/`pay` columns are unconditionally overwritten with the final
wage rate and wage total. -/
def doUpdate (db : DB) (companyId eid jobId workerId : Nat) (hrs : ℚ)
    (isBank : Bool) (finalTierId : Option Nat) (jno1 : String)
    (jno2 : Option String) (wdate : Int) (note : Option String)
    (requestedFees : Option ℚ) (canEditRates : Bool) (cR cT wR wT : ℚ) :
    Except ApiError (DB × UpdateOk) :=
  let finalFees := match requestedFees with | some f => f | none => cT
  let changes :=
    (db.work_entries.filter (fun e => decide (e.id = eid ∧ e.company_id = companyId))).length
  if changes = 0 then .error .NotFound
  else if db.work_entries.any (fun e =>
      decide (e.company_id = companyId ∧ e.job_no1 = jno1 ∧ e.id ≠ eid)) then
    .error .DuplicateJobReference
  else
    .ok ({ db with work_entries := db.work_entries.map (fun e =>
            if decide (e.id = eid ∧ e.company_id = companyId) then
              { e with
                job_id := jobId, amount := hrs, is_bank := isBank,
                worker_id := workerId,
                customer_rate := cR, customer_total := cT,
                wage_tier_id := finalTierId, wage_rate := wR, wage_total := wT,
                rate := wR, pay := wT,
                job_no1 := jno1, job_no2 := jno2, work_date := wdate,
                note := note, fees_collected := some finalFees }
            else e) },
         ⟨changes, canEditRates, finalFees⟩)

/-- `finalTierId` of `PUT /api/work-entries/:id`: the supplied tier when
present, else the entry's stored tier. -/
def finalTier (b : UpdateBody) (existing : WorkEntryRow) : Option Nat :=
  match b.wage_tier_id with
  | some t => some t
  | none => existing.wage_tier_id

/-- The restricted-mode wage-rate lookup of `PUT /api/work-entries/:id`:

    SELECT COALESCE(jw.wage_rate, 0) AS wage_rate
    FROM jobs j LEFT JOIN job_wages jw
      ON jw.job_id = j.id AND jw.tier_id = ? AND jw.company_id = j.company_id
    WHERE j.id = ? AND j.company_id = ?

A missing `job_wages` row (or a null tier) coalesces to wage rate 0. -/
def resolvedWageRate (db : DB) (cid : Nat) (job : JobRow) (tier : Option Nat) : ℚ :=
  match tier with
  | none => 0
  | some tid =>
    match db.job_wages.find? (fun w =>
        decide (w.job_id = job.id ∧ w.tier_id = tid ∧ w.company_id = cid)) with
    | some w => w.wage_rate
    | none => 0

/-- Continuation of `PUT /api/work-entries/:id` after the existing row has
been loaded inside the edit window: job resolution, the
`WORK_ENTRY_EDIT_RATES` check, rate-change detection against the STORED
values, fees validation, and rate resolution (restricted recalculation from
`jobs`/`job_wages`, or caller-supplied values in privileged mode). -/
def updateLoaded (db : DB) (req : Req) (companyId eid : Nat) (b : UpdateBody)
    (existing : WorkEntryRow) (workerId : Nat) (jcode : String) (amt : ℚ)
    (jno1 : String) (wdate : Int) : Except ApiError (DB × UpdateOk) :=
  match db.jobs.find? (fun j => decide (j.company_id = companyId ∧ j.job_code = jcode)) with
  | none => .error .InvalidJobReference
  | some job =>
    let canEditRates := hasPermission db req.session_user "WORK_ENTRY_EDIT_RATES"
    let wantsRateChange :=
      (match b.customer_rate with
       | some cr => decide (cr ≠ existing.customer_rate)
       | none => false) ||
      (match b.wage_rate with
       | some wr => decide (wr ≠ existing.wage_rate)
       | none => false)
    if wantsRateChange && !canEditRates then .error .RateEditForbidden
    else
      let finalTierId := finalTier b existing
      let isBank := decide (b.is_bank = some 1)
      if (match b.fees_collected with | some f => decide (f < 0) | none => false) then
        .error .InvalidFees
      else if !canEditRates then
        let cRate := job.normal_price
        let wRate := resolvedWageRate db companyId job finalTierId
        if cRate ≤ 0 then .error .RateResolutionFailed
        else if wRate ≤ 0 then .error .RateResolutionFailed
        else
          doUpdate db companyId eid job.id workerId amt isBank finalTierId jno1
            b.job_no2 wdate b.note b.fees_collected canEditRates
            cRate (cRate * amt) wRate (wRate * amt)
      else
        match b.customer_rate with
        | none => .error .InvalidRate
        | some cr =>
          if cr ≤ 0 then .error .InvalidRate
          else
            match b.wage_rate with
            | none => .error .InvalidRate
            | some wr =>
              if wr ≤ 0 then .error .InvalidRate
              else
                doUpdate db companyId eid job.id workerId amt isBank finalTierId
                  jno1 b.job_no2 wdate b.note b.fees_collected canEditRates
                  cr (cr * amt) wr (wr * amt)

/-- `PUT /api/work-entries/:id` from `workEntryRoutes.js` (the handler behind
`requirePermission("WORK_ENTRY_EDIT")`): field validation, edit-window
computation, and the window-filtered load

    SELECT we.* FROM work_entries we
    WHERE we.id = ? AND we.company_id = ? [AND we.work_date >= date('now', ?)]

whose empty result is the 403 `OutOfEditWindow`; then `updateLoaded`. -/
def updateWorkEntry (db : DB) (req : Req) (eid : Nat) (b : UpdateBody)
    (today : Int) : Except ApiError (DB × UpdateOk) :=
  let companyId := getCompanyId req
  if eid = 0 ∨ companyId = 0 then .error .InvalidIdCompany
  else
    match b.worker_id with
    | none => .error .MissingRequired
    | some workerId =>
      match b.job_code, b.amount, b.job_no1, b.work_date with
      | some jcode, some amt, some jno1, some wdate =>
        if amt ≤ 0 then .error .InvalidAmount
        else
          let daysLimit := getDaysLimitForUser db req.session_user
          match db.work_entries.find? (fun e =>
              decide (e.id = eid ∧ e.company_id = companyId) &&
              withinWindow e.work_date daysLimit today) with
          | none => .error .OutOfEditWindow
          | some existing =>
            updateLoaded db req companyId eid b existing workerId jcode amt jno1 wdate
      | _, _, _, _ => .error .MissingRequired

end WorkEntryRoutes

/-! ## Concrete fixtures for witnesses and counterexamples -/

/-- A non-admin session user: user 2 of company 1. -/
def staffUser : SessionUser := ⟨2, some 1, 0⟩

/-- An admin session user: user 9 of company 1, `is_admin = 1`. -/
def adminUser : SessionUser := ⟨9, some 1, 1⟩

/-- A request carrying only a session user (company resolved from it). -/
def reqOf (u : SessionUser) : Req := ⟨none, none, none, some u⟩

/-- Database for the override scenario: non-admin user 2 has role 1 (`staff`),
role 1 is granted permission 1 (code `X`, active), and user 2 carries a
`DENY` override on permission 1 in `user_permissions`. -/
def overrideDb : DB := { DB.empty with
  users := [⟨2, some 1, some 1, 0⟩]
  roles := [⟨1, none, "staff", some 30⟩]
  permissions := [⟨1, "X", true⟩]
  role_permissions := [⟨1, 1⟩]
  user_permissions := [⟨2, 1, .deny⟩] }

/-- Database for the edit-window override scenario: non-admin user 2 has a
personal `work_entries_days_limit_override` of 0 while role 1 configures a
limit of 30 days. -/
def zeroOverrideDb : DB := { DB.empty with
  users := [⟨2, some 1, some 1, 0⟩]
  roles := [⟨1, none, "staff", some 30⟩]
  user_settings := [⟨2, some 0⟩] }

/-- Database for create/update scenarios: company 1 has job 1 (`J1`, base
customer price 30) and a wage rate of 12 for job 1 × tier 5; non-admin user 2
has role 1 (`staff`, 30-day edit window) which grants `WORK_ENTRY_EDIT` but
neither `WORK_ENTRY_EDIT_RATES` nor `WORK_ENTRY_CREATE` (all three permission
codes exist and are active). -/
def createDb : DB := { DB.empty with
  users := [⟨2, some 1, some 1, 0⟩]
  roles := [⟨1, none, "staff", some 30⟩]
  permissions := [⟨1, "WORK_ENTRY_EDIT", true⟩, ⟨2, "WORK_ENTRY_EDIT_RATES", true⟩,
                  ⟨3, "WORK_ENTRY_CREATE", true⟩]
  role_permissions := [⟨1, 1⟩]
  jobs := [⟨1, 1, "J1", "massage", 30, 1⟩]
  job_wages := [⟨1, 1, 5, 12⟩] }

/-- Create body: customerRate 50, hours 3, customerTotal 150, wage snapshot
tier 5 at 20 (total 60), job `J1`, reference number `A1`, work date day 100. -/
def createBody50 : WorkEntryRoutes.CreateBody :=
  { company_id := none, worker_id := some 7, job_code := some "J1"
    amount := some 3, is_bank := none
    customer_rate := some 50, customer_total := some 150
    wage_tier_id := some 5, wage_rate := some 20, wage_total := some 60
    rate := none, pay := none, job_no1 := some "A1", job_no2 := none
    work_date := some 100, fees_collected := none, note := none }

/-- Job update raising `J1`'s base price to 999 and the tier-5 wage to 77. -/
def priceBumpBody : JobRoutes.JobUpdateBody := ⟨"J1", "massage", 999, 1, [(5, 77)]⟩

/-- A stored work entry of company 1: id 1, job 1, 3 hours at customer rate
20 (total 60), wage tier 5 at rate 20 (total 60), reference `A1`, work date
day 100. -/
def entry1 : WorkEntryRow :=
  { id := 1, company_id := 1, worker_id := 7, job_id := 1, work_date := 100
    job_no1 := "A1", job_no2 := none, amount := 3, rate := 20, pay := 60
    customer_rate := 20, customer_total := 60, fees_collected := some 60
    wage_tier_id := some 5, wage_rate := 20, wage_total := 60
    is_bank := false, note := none }

/-- `createDb` with `entry1` already persisted. -/
def updateDb : DB := { createDb with work_entries := [entry1], next_entry_id := 2 }

/-- `createDb` with a 40-day-old copy of `entry1` (work date day 60,
reference date day 100). -/
def oldEntryDb : DB :=
  { createDb with work_entries := [{ entry1 with work_date := 60 }], next_entry_id := 2 }

/-- Update body supplying wage rate 25 against the stored 20 (a rate-change
attempt), otherwise repeating the stored values. -/
def rateChangeBody : WorkEntryRoutes.UpdateBody :=
  { worker_id := some 7, job_code := some "J1", amount := some 3, is_bank := none
    customer_rate := none, wage_tier_id := none, wage_rate := some 25
    job_no1 := some "A1", job_no2 := none, work_date := some 100
    note := none, fees_collected := none }

/-- Update body supplying no rates at all (restricted-mode recalculation),
4 hours. -/
def noRateBody : WorkEntryRoutes.UpdateBody :=
  { worker_id := some 7, job_code := some "J1", amount := some 4, is_bank := none
    customer_rate := none, wage_tier_id := none, wage_rate := none
    job_no1 := some "A1", job_no2 := none, work_date := some 100
    note := none, fees_collected := none }

/-! ## Helper lemmas -/

theorem upsertJobWage_work_entries (db : DB) (cid jid tid : Nat) (r : ℚ) :
    (JobRoutes.upsertJobWage db cid jid tid r).work_entries = db.work_entries := by
  unfold JobRoutes.upsertJobWage
  split <;> rfl

theorem foldl_upsert_work_entries (l : List (Nat × ℚ)) (db : DB) (cid jid : Nat) :
    (l.foldl (fun d tr => JobRoutes.upsertJobWage d cid jid tr.1 tr.2) db).work_entries
      = db.work_entries := by
  induction l generalizing db with
  | nil => rfl
  | cons hd tl ih => rw [List.foldl_cons, ih, upsertJobWage_work_entries]

/-- A successful `PUT /api/jobs/:id` only writes the `jobs` and `job_wages`
tables: the `work_entries` table is untouched. -/
theorem updateJob_work_entries (db : DB) (cid jid : Nat)
    (b : JobRoutes.JobUpdateBody) (db' : DB)
    (h : JobRoutes.updateJob db cid jid b = Except.ok db') :
    db'.work_entries = db.work_entries := by
  unfold JobRoutes.updateJob at h
  split at h
  · simp only [Except.ok.injEq] at h
    subst h
    rw [foldl_upsert_work_entries]
  · exact absurd h (by simp)

/-! ## Claim theorems -/

/-- C4: the spec claims a per-user `DENY` override on permission code `X`
makes authorization return `false` even when the role grants `X` and `X` is
active.  The code contradicts this: no permission-check query reads the
`user_permissions` table, so in a database where user 2 (non-admin) has a
`DENY` override on the role-granted active permission `X`, every embedded
check still authorizes user 2 for `X`. -/
theorem deny_override_is_ignored_by_all_checks :
    overrideDb.user_permissions = [⟨2, 1, OverrideEffect.deny⟩] ∧
    WorkEntryRoutes.hasPermission overrideDb (some staffUser) "X" = true ∧
    Middleware.hasPermission overrideDb 2 "X" = true ∧
    Middleware.requirePermission overrideDb (some staffUser) "X" =
      Middleware.GateResult.next := by
  decide

/-- C5: a principal with the admin flag set is authorized for every
permission code at every embedded check site: the `requirePermission`
middleware, the work-entry routes' local `hasPermission`, and the two
server-side call sites of the middleware `hasPermission` (which guard with
the admin flag before consulting it). -/
theorem admin_bypass_authorizes_everything (db : DB) (u : SessionUser)
    (code : String) (hadmin : u.is_admin = 1) (hid : u.id ≠ 0) :
    Middleware.requirePermission db (some u) code = Middleware.GateResult.next ∧
    WorkEntryRoutes.hasPermission db (some u) code = true ∧
    Server.dashboardCanSeeRates db u = true ∧
    Server.reportsCanFilterPayType db u = true := by
  refine ⟨?_, ?_, ?_, ?_⟩ <;>
    simp [Middleware.requirePermission, WorkEntryRoutes.hasPermission,
      Server.dashboardCanSeeRates, Server.reportsCanFilterPayType, hadmin, hid]

/-- Witness for C5: the concrete admin user 9 is authorized for an arbitrary
code (even one no permission row defines) against the override database. -/
theorem admin_bypass_authorizes_everything_witness :
    Middleware.requirePermission overrideDb (some adminUser) "NO_SUCH_CODE" =
      Middleware.GateResult.next ∧
    WorkEntryRoutes.hasPermission overrideDb (some adminUser) "NO_SUCH_CODE" = true ∧
    Server.dashboardCanSeeRates overrideDb adminUser = true ∧
    Server.reportsCanFilterPayType overrideDb adminUser = true :=
  admin_bypass_authorizes_everything overrideDb adminUser "NO_SUCH_CODE" rfl
    (by decide)

/-- C6 counterexample: the claim says a zero personal override falls back to
the role's configured limit (30 here).  In the code a non-null override
always takes precedence and a non-positive limit collapses to `none`
(unlimited): user 2 with override 0 and role limit 30 gets `none`, not
`some 30`. -/
theorem zero_override_yields_unlimited_not_role_limit :
    WorkEntryRoutes.getDaysLimitForUser zeroOverrideDb (some staffUser) = none ∧
    WorkEntryRoutes.getDaysLimitForUser zeroOverrideDb (some staffUser) ≠ some 30 := by
  decide

/-- C6 amended: for a non-admin principal the personal override is preferred
whenever it is present and positive; a present but zero-or-negative override
yields `none` (unlimited) — it does NOT fall back to the role limit; only an
absent override falls back to the role limit (when positive, else `none`). -/
theorem days_limit_override_resolution (db : DB) (u : SessionUser)
    (urow : UserRow) (hadmin : u.is_admin ≠ 1) (hid : u.id ≠ 0)
    (hrow : db.users.find? (fun x => decide (x.id = u.id)) = some urow) :
    (∀ v : Int, WorkEntryRoutes.overrideLimitOf db urow.id = some v → 0 < v →
      WorkEntryRoutes.getDaysLimitForUser db (some u) = some v) ∧
    (∀ v : Int, WorkEntryRoutes.overrideLimitOf db urow.id = some v → v ≤ 0 →
      WorkEntryRoutes.getDaysLimitForUser db (some u) = none) ∧
    (WorkEntryRoutes.overrideLimitOf db urow.id = none → ∀ r : Int,
      WorkEntryRoutes.roleLimitOf db urow = some r → 0 < r →
      WorkEntryRoutes.getDaysLimitForUser db (some u) = some r) ∧
    (WorkEntryRoutes.overrideLimitOf db urow.id = none → ∀ r : Int,
      WorkEntryRoutes.roleLimitOf db urow = some r → r ≤ 0 →
      WorkEntryRoutes.getDaysLimitForUser db (some u) = none) ∧
    (WorkEntryRoutes.overrideLimitOf db urow.id = none →
      WorkEntryRoutes.roleLimitOf db urow = none →
      WorkEntryRoutes.getDaysLimitForUser db (some u) = none) := by
  unfold WorkEntryRoutes.getDaysLimitForUser
  refine ⟨fun v hov hpos => ?_, fun v hov hnp => ?_,
    fun hov r hr hpos => ?_, fun hov r hr hnp => ?_, fun hov hr => ?_⟩
  · simp [hadmin, hid, hrow, hov, show ¬(v ≤ 0) by omega]
  · simp [hadmin, hid, hrow, hov, hnp]
  · simp [hadmin, hid, hrow, hov, hr, show ¬(r ≤ 0) by omega]
  · simp [hadmin, hid, hrow, hov, hr, hnp]
  · simp [hadmin, hid, hrow, hov, hr]

/-- Witness for C6 amended: user 2 of `zeroOverrideDb` has override 0, so the
resolved limit is `none` even though the role limit is 30. -/
theorem days_limit_override_resolution_witness :
    WorkEntryRoutes.getDaysLimitForUser zeroOverrideDb (some staffUser) = none :=
  (days_limit_override_resolution zeroOverrideDb staffUser ⟨2, some 1, some 1, 0⟩
    (by decide) (by decide) (by decide)).2.1 0 (by decide) (by decide)

/-- C9: a work-entry list request with no company id in query, body or
session and no authenticated principal resolves the company context to
company 1 and returns every work entry of company 1, with no edit-window
date filter. -/
theorem list_falls_back_to_company_one (db : DB) (today : Int) :
    WorkEntryRoutes.listWorkEntries db ⟨none, none, none, none⟩ today =
      db.work_entries.filter (fun e => decide (e.company_id = 1)) := by
  unfold WorkEntryRoutes.listWorkEntries
  simp [WorkEntryRoutes.getCompanyId, WorkEntryRoutes.getDaysLimitForUser,
    WorkEntryRoutes.withinWindow]

/-- C8: the spec claims creation is gated by the `WORK_ENTRY_CREATE`
capability.  The POST route is registered without any permission middleware
and the handler performs no permission check: user 2, whose role does not
grant `WORK_ENTRY_CREATE` (a check at the gate would have answered 403
Forbidden), nevertheless inserts a row successfully. -/
theorem create_succeeds_without_create_permission :
    WorkEntryRoutes.hasPermission createDb (some staffUser) "WORK_ENTRY_CREATE" = false ∧
    Middleware.requirePermission createDb (some staffUser) "WORK_ENTRY_CREATE" =
      Middleware.GateResult.forbidden "WORK_ENTRY_CREATE" ∧
    ∃ db' i f,
      WorkEntryRoutes.createWorkEntry createDb (reqOf staffUser) createBody50 =
        Except.ok (db', i, f) ∧
      db'.work_entries.length = createDb.work_entries.length + 1 := by
  exact ⟨by decide, by decide, _, _, _, rfl, by decide⟩

/-- C1: snapshot accounting.  A successful `PUT /api/jobs/:id` (which
rewrites `Job.normal_price` and upserts `JobWageRate` rows) leaves every
persisted work entry — hence each entry's stored `customer_rate`,
`customer_total`, `wage_rate`, `wage_total` — unchanged; in particular an
entry created with customerRate 50, hours 3, customerTotal 150 still stores
customer total 150 afterwards. -/
theorem snapshot_survives_job_update (db : DB) (req : Req)
    (b : WorkEntryRoutes.CreateBody) (db1 : DB) (i : Nat) (f : ℚ)
    (hrate : b.customer_rate = some 50) (hamt : b.amount = some 3)
    (htot : b.customer_total = some 150)
    (hc : WorkEntryRoutes.createWorkEntry db req b = Except.ok (db1, i, f))
    (cid jid : Nat) (jb : JobRoutes.JobUpdateBody) (db2 : DB)
    (hu : JobRoutes.updateJob db1 cid jid jb = Except.ok db2) :
    db2.work_entries = db1.work_entries ∧
    ∃ e ∈ db2.work_entries, e.id = i ∧ e.customer_rate = 50 ∧
      e.customer_total = 150 := by
  have hframe : db2.work_entries = db1.work_entries :=
    updateJob_work_entries db1 cid jid jb db2 hu
  refine ⟨hframe, ?_⟩
  rw [hframe]
  obtain ⟨bcid, bwid, bjc, bam, bib, bcr, bct, bwtid, bwr, bwtot, brl, bpl,
    bj1, bj2, bwd, bfc, bn⟩ := b
  simp only at hrate hamt htot
  subst hrate; subst hamt; subst htot
  unfold WorkEntryRoutes.createWorkEntry at hc
  rcases bwid with _ | wid
  · exact absurd hc (by simp)
  rcases bjc with _ | jcode
  · exact absurd hc (by simp)
  rcases bj1 with _ | jno1
  · exact absurd hc (by simp)
  rcases bwd with _ | wdate
  · exact absurd hc (by simp)
  rcases bwr with _ | wrate
  · exact absurd hc (by simp)
  rcases bwtot with _ | wtot
  · exact absurd hc (by simp)
  dsimp only at hc
  split at hc
  · exact absurd hc (by simp)
  split_ifs at hc
  all_goals first
    | exact Except.noConfusion hc
    | (simp only [Except.ok.injEq, Prod.mk.injEq] at hc
       obtain ⟨hdb1, hi, -⟩ := hc
       subst hdb1
       exact ⟨_, List.mem_append_right _ (List.mem_singleton_self _),
         by simpa using hi, rfl, rfl⟩)

/-- Witness for C1: creating against `createDb` and then bumping `J1`'s
price to 999 (and the tier-5 wage to 77) leaves the stored snapshot at
customer rate 50 / total 150. -/
theorem snapshot_survives_job_update_witness :
    ∃ (db1 db2 : DB) (i : Nat) (f : ℚ),
      WorkEntryRoutes.createWorkEntry createDb (reqOf staffUser) createBody50 =
        Except.ok (db1, i, f) ∧
      JobRoutes.updateJob db1 1 1 priceBumpBody = Except.ok db2 ∧
      db2.work_entries = db1.work_entries ∧
      ∃ e ∈ db2.work_entries, e.id = i ∧ e.customer_rate = 50 ∧
        e.customer_total = 150 := by
  obtain ⟨h1, h2⟩ := snapshot_survives_job_update createDb (reqOf staffUser)
    createBody50 _ _ _ rfl rfl rfl rfl 1 1 priceBumpBody _ rfl
  exact ⟨_, _, _, _, rfl, rfl, h1, h2⟩

/-- A successful `doUpdate` leaves the legacy `rate`/`pay` columns of the
written row equal to the final `wage_rate`/`wage_total`. -/
theorem doUpdate_mirror {db : DB} {cid eid jid wid : Nat} {hrs : ℚ} {ib : Bool}
    {tier : Option Nat} {j1 : String} {j2 : Option String} {wd : Int}
    {nt : Option String} {rfees : Option ℚ} {cer : Bool} {cR cT wR wT : ℚ}
    {db' : DB} {r : WorkEntryRoutes.UpdateOk}
    (h : WorkEntryRoutes.doUpdate db cid eid jid wid hrs ib tier j1 j2 wd nt
      rfees cer cR cT wR wT = Except.ok (db', r)) :
    ∀ e ∈ db'.work_entries, e.id = eid → e.company_id = cid →
      e.rate = e.wage_rate ∧ e.pay = e.wage_total := by
  unfold WorkEntryRoutes.doUpdate at h
  dsimp only at h
  split at h
  · exact Except.noConfusion h
  split at h
  · exact Except.noConfusion h
  simp only [Except.ok.injEq, Prod.mk.injEq] at h
  obtain ⟨hdb, -⟩ := h
  subst hdb
  intro e he hid hcid
  simp only [List.mem_map] at he
  obtain ⟨a, ha, rfl⟩ := he
  by_cases hcond : (a.id = eid ∧ a.company_id = cid)
  · rw [if_pos (by simpa using hcond)]
    exact ⟨rfl, rfl⟩
  · rw [if_neg (by simpa using hcond)] at hid hcid ⊢
    exact absurd ⟨hid, hcid⟩ hcond

/-- A successful `updateLoaded` (either rate path) writes the legacy mirror. -/
theorem updateLoaded_mirror {db : DB} {req : Req} {cid eid : Nat}
    {b : WorkEntryRoutes.UpdateBody} {ex : WorkEntryRow} {wid : Nat}
    {jcode : String} {amt : ℚ} {jno1 : String} {wdate : Int} {db' : DB}
    {r : WorkEntryRoutes.UpdateOk}
    (h : WorkEntryRoutes.updateLoaded db req cid eid b ex wid jcode amt jno1 wdate
      = Except.ok (db', r)) :
    ∀ e ∈ db'.work_entries, e.id = eid → e.company_id = cid →
      e.rate = e.wage_rate ∧ e.pay = e.wage_total := by
  unfold WorkEntryRoutes.updateLoaded at h
  dsimp only at h
  split at h
  · exact Except.noConfusion h
  rcases hcr : b.customer_rate with _ | cr <;> rw [hcr] at h <;>
    rcases hwr : b.wage_rate with _ | wr <;> rw [hwr] at h <;>
    rcases hfc : b.fees_collected with _ | fv <;> rw [hfc] at h <;>
    dsimp only at h <;>
    split_ifs at h <;>
    first
      | exact Except.noConfusion h
      | exact doUpdate_mirror h

/-- C10: after every successful update of a work entry the stored legacy
fields of the written row satisfy `rate = wage_rate` and `pay = wage_total`
(the UPDATE writes the final wage rate and total into the legacy columns),
on both the restricted and the privileged rate-resolution path. -/
theorem update_writes_legacy_mirror (db : DB) (req : Req) (eid : Nat)
    (b : WorkEntryRoutes.UpdateBody) (today : Int) (db' : DB)
    (r : WorkEntryRoutes.UpdateOk)
    (h : WorkEntryRoutes.updateWorkEntry db req eid b today = Except.ok (db', r)) :
    ∀ e ∈ db'.work_entries, e.id = eid →
      e.company_id = WorkEntryRoutes.getCompanyId req →
      e.rate = e.wage_rate ∧ e.pay = e.wage_total := by
  unfold WorkEntryRoutes.updateWorkEntry at h
  dsimp only at h
  by_cases h0 : eid = 0 ∨ WorkEntryRoutes.getCompanyId req = 0
  · rw [if_pos h0] at h
    exact Except.noConfusion h
  rw [if_neg h0] at h
  rcases hw : b.worker_id with _ | wid <;> rw [hw] at h
  · exact Except.noConfusion h
  rcases hjc : b.job_code with _ | jcode <;> rw [hjc] at h
  · exact Except.noConfusion h
  rcases ham : b.amount with _ | amt <;> rw [ham] at h
  · exact Except.noConfusion h
  rcases hj1 : b.job_no1 with _ | jno1 <;> rw [hj1] at h
  · exact Except.noConfusion h
  rcases hwd : b.work_date with _ | wdate <;> rw [hwd] at h
  · exact Except.noConfusion h
  dsimp only at h
  split at h
  · exact Except.noConfusion h
  split at h
  · exact Except.noConfusion h
  exact updateLoaded_mirror h

/-- Witness for C10: the restricted-mode update of `entry1` (no rates
supplied, 4 hours) succeeds and the written row mirrors the legacy fields. -/
theorem update_writes_legacy_mirror_witness :
    ∃ (db' : DB) (r : WorkEntryRoutes.UpdateOk),
      WorkEntryRoutes.updateWorkEntry updateDb (reqOf staffUser) 1 noRateBody 100 =
        Except.ok (db', r) ∧
      ∀ e ∈ db'.work_entries, e.id = 1 →
        e.company_id = WorkEntryRoutes.getCompanyId (reqOf staffUser) →
        e.rate = e.wage_rate ∧ e.pay = e.wage_total :=
  ⟨_, _, rfl,
    update_writes_legacy_mirror updateDb (reqOf staffUser) 1 noRateBody 100 _ _ rfl⟩

/-- When the id/company are non-zero, the required fields are present, the
hours are positive, and the window-filtered load returns a row, the update
handler reduces to its post-load continuation. -/
theorem updateWorkEntry_eq_updateLoaded (db : DB) (req : Req) (eid : Nat)
    (b : WorkEntryRoutes.UpdateBody) (today : Int) (ex : WorkEntryRow)
    (wid : Nat) (jcode : String) (amt : ℚ) (jno1 : String) (wdate : Int)
    (h0 : ¬(eid = 0 ∨ WorkEntryRoutes.getCompanyId req = 0))
    (hw : b.worker_id = some wid) (hjc : b.job_code = some jcode)
    (ha : b.amount = some amt) (hj1 : b.job_no1 = some jno1)
    (hwd : b.work_date = some wdate) (hamt : ¬ amt ≤ 0)
    (hfound : db.work_entries.find? (fun e =>
        decide (e.id = eid ∧ e.company_id = WorkEntryRoutes.getCompanyId req) &&
        WorkEntryRoutes.withinWindow e.work_date
          (WorkEntryRoutes.getDaysLimitForUser db req.session_user) today) = some ex) :
    WorkEntryRoutes.updateWorkEntry db req eid b today =
      WorkEntryRoutes.updateLoaded db req (WorkEntryRoutes.getCompanyId req) eid b ex
        wid jcode amt jno1 wdate := by
  unfold WorkEntryRoutes.updateWorkEntry
  dsimp only
  rw [if_neg h0, hw, hjc, ha, hj1, hwd]
  dsimp only
  rw [if_neg hamt, hfound]

/-- C2: an update by a principal lacking `WORK_ENTRY_EDIT_RATES` that
supplies a customer or wage rate differing numerically from the value stored
in the loaded row fails with `RateEditForbidden`.  The comparison is against
the STORED values (`ex`, the loaded row) and runs before rate resolution,
fees validation and the UPDATE itself; only an `.ok` result carries a new
state, so the stored row is left completely unchanged. -/
theorem rate_change_without_capability_forbidden (db : DB) (req : Req)
    (eid : Nat) (b : WorkEntryRoutes.UpdateBody) (today : Int)
    (ex : WorkEntryRow) (job : JobRow) (wid : Nat) (jcode : String) (amt : ℚ)
    (jno1 : String) (wdate : Int)
    (h0 : ¬(eid = 0 ∨ WorkEntryRoutes.getCompanyId req = 0))
    (hw : b.worker_id = some wid) (hjc : b.job_code = some jcode)
    (ha : b.amount = some amt) (hj1 : b.job_no1 = some jno1)
    (hwd : b.work_date = some wdate) (hamt : ¬ amt ≤ 0)
    (hfound : db.work_entries.find? (fun e =>
        decide (e.id = eid ∧ e.company_id = WorkEntryRoutes.getCompanyId req) &&
        WorkEntryRoutes.withinWindow e.work_date
          (WorkEntryRoutes.getDaysLimitForUser db req.session_user) today) = some ex)
    (hjob : db.jobs.find? (fun j =>
        decide (j.company_id = WorkEntryRoutes.getCompanyId req ∧ j.job_code = jcode))
      = some job)
    (hperm : WorkEntryRoutes.hasPermission db req.session_user "WORK_ENTRY_EDIT_RATES"
      = false)
    (hchange : (∃ cr, b.customer_rate = some cr ∧ cr ≠ ex.customer_rate) ∨
               (∃ wr, b.wage_rate = some wr ∧ wr ≠ ex.wage_rate)) :
    WorkEntryRoutes.updateWorkEntry db req eid b today =
      Except.error ApiError.RateEditForbidden := by
  rw [updateWorkEntry_eq_updateLoaded db req eid b today ex wid jcode amt jno1
    wdate h0 hw hjc ha hj1 hwd hamt hfound]
  unfold WorkEntryRoutes.updateLoaded
  dsimp only
  rw [hjob]
  rcases hchange with ⟨cr, hcr, hne⟩ | ⟨wr, hwr, hne⟩
  · simp [hperm, hcr, hne]
  · simp [hperm, hwr, hne]

/-- Witness for C2: user 2 (no `WORK_ENTRY_EDIT_RATES`) updating `entry1`
(stored wage rate 20) while supplying wage rate 25 gets `RateEditForbidden`. -/
theorem rate_change_without_capability_forbidden_witness :
    WorkEntryRoutes.updateWorkEntry updateDb (reqOf staffUser) 1 rateChangeBody 100 =
      Except.error ApiError.RateEditForbidden :=
  rate_change_without_capability_forbidden updateDb (reqOf staffUser) 1
    rateChangeBody 100 entry1 ⟨1, 1, "J1", "massage", 30, 1⟩ 7 "J1" 3 "A1" 100
    (by decide) rfl rfl rfl rfl rfl (by norm_num) (by decide) (by decide)
    (by decide) (Or.inr ⟨25, rfl, by decide⟩)

/-- When some row matches the UPDATE's WHERE clause and no other row holds
the same `(company_id, job_no1)` pair, `doUpdate` succeeds and rewrites
exactly the matching rows. -/
theorem doUpdate_ok_exists (db : DB) (cid eid jid wid : Nat) (hrs : ℚ)
    (ib : Bool) (tier : Option Nat) (j1 : String) (j2 : Option String)
    (wd : Int) (nt : Option String) (rfees : Option ℚ) (cer : Bool)
    (cR cT wR wT : ℚ)
    (hchanges : (db.work_entries.filter (fun e =>
        decide (e.id = eid ∧ e.company_id = cid))).length ≠ 0)
    (hnodup : (db.work_entries.any (fun e =>
        decide (e.company_id = cid ∧ e.job_no1 = j1 ∧ e.id ≠ eid))) = false) :
    ∃ db' r, WorkEntryRoutes.doUpdate db cid eid jid wid hrs ib tier j1 j2 wd nt
        rfees cer cR cT wR wT = Except.ok (db', r) ∧
      db'.work_entries = db.work_entries.map (fun e =>
        if decide (e.id = eid ∧ e.company_id = cid) then
          { e with
            job_id := jid, amount := hrs, is_bank := ib, worker_id := wid,
            customer_rate := cR, customer_total := cT,
            wage_tier_id := tier, wage_rate := wR, wage_total := wT,
            rate := wR, pay := wT,
            job_no1 := j1, job_no2 := j2, work_date := wd, note := nt,
            fees_collected := some (match rfees with | some f => f | none => cT) }
        else e) := by
  unfold WorkEntryRoutes.doUpdate
  dsimp only
  rw [if_neg hchanges, if_neg (by simp only [hnodup]; exact Bool.false_ne_true)]
  exact ⟨_, _, rfl, rfl⟩

/-- C3: restricted-mode rate resolution.  When the principal cannot edit
rates (and supplies no differing rates, so the rate-change gate passes, and
no negative fees), caller-supplied rate values are ignored: the customer
rate is the job's base `normal_price` and the wage rate is the `job_wages`
row for the resolved tier (missing row = 0, via `resolvedWageRate`).  If
either resolved rate is not strictly positive the update fails with
`RateResolutionFailed` before any write; otherwise the stored row gets
`customer_total = normal_price × hours` and `wage_total = wage rate × hours`. -/
theorem restricted_mode_rate_resolution (db : DB) (req : Req) (eid : Nat)
    (b : WorkEntryRoutes.UpdateBody) (today : Int) (ex : WorkEntryRow)
    (job : JobRow) (wid : Nat) (jcode : String) (amt : ℚ) (jno1 : String)
    (wdate : Int)
    (h0 : ¬(eid = 0 ∨ WorkEntryRoutes.getCompanyId req = 0))
    (hw : b.worker_id = some wid) (hjc : b.job_code = some jcode)
    (ha : b.amount = some amt) (hj1 : b.job_no1 = some jno1)
    (hwd : b.work_date = some wdate) (hamt : ¬ amt ≤ 0)
    (hfound : db.work_entries.find? (fun e =>
        decide (e.id = eid ∧ e.company_id = WorkEntryRoutes.getCompanyId req) &&
        WorkEntryRoutes.withinWindow e.work_date
          (WorkEntryRoutes.getDaysLimitForUser db req.session_user) today) = some ex)
    (hjob : db.jobs.find? (fun j =>
        decide (j.company_id = WorkEntryRoutes.getCompanyId req ∧ j.job_code = jcode))
      = some job)
    (hperm : WorkEntryRoutes.hasPermission db req.session_user "WORK_ENTRY_EDIT_RATES"
      = false)
    (hcr : b.customer_rate = none ∨ b.customer_rate = some ex.customer_rate)
    (hwr : b.wage_rate = none ∨ b.wage_rate = some ex.wage_rate)
    (hfees : b.fees_collected = none ∨ ∃ fv, b.fees_collected = some fv ∧ ¬ fv < 0) :
    (job.normal_price ≤ 0 ∨
        WorkEntryRoutes.resolvedWageRate db (WorkEntryRoutes.getCompanyId req) job
          (WorkEntryRoutes.finalTier b ex) ≤ 0 →
      WorkEntryRoutes.updateWorkEntry db req eid b today =
        Except.error ApiError.RateResolutionFailed) ∧
    (0 < job.normal_price →
     0 < WorkEntryRoutes.resolvedWageRate db (WorkEntryRoutes.getCompanyId req) job
          (WorkEntryRoutes.finalTier b ex) →
     (db.work_entries.any (fun e =>
        decide (e.company_id = WorkEntryRoutes.getCompanyId req ∧ e.job_no1 = jno1 ∧
          e.id ≠ eid))) = false →
      ∃ db' r, WorkEntryRoutes.updateWorkEntry db req eid b today =
          Except.ok (db', r) ∧
        ∃ e ∈ db'.work_entries, e.id = eid ∧
          e.customer_rate = job.normal_price ∧
          e.customer_total = job.normal_price * amt ∧
          e.wage_rate = WorkEntryRoutes.resolvedWageRate db
            (WorkEntryRoutes.getCompanyId req) job (WorkEntryRoutes.finalTier b ex) ∧
          e.wage_total = WorkEntryRoutes.resolvedWageRate db
            (WorkEntryRoutes.getCompanyId req) job (WorkEntryRoutes.finalTier b ex)
            * amt) := by
  have hexmem := List.mem_of_find?_eq_some hfound
  have hpred := List.find?_some hfound
  simp only [Bool.and_eq_true, decide_eq_true_eq] at hpred
  obtain ⟨⟨hexid, hexcid⟩, -⟩ := hpred
  have hred : WorkEntryRoutes.updateWorkEntry db req eid b today =
      (if job.normal_price ≤ 0 then Except.error ApiError.RateResolutionFailed
       else if WorkEntryRoutes.resolvedWageRate db (WorkEntryRoutes.getCompanyId req)
           job (WorkEntryRoutes.finalTier b ex) ≤ 0 then
         Except.error ApiError.RateResolutionFailed
       else WorkEntryRoutes.doUpdate db (WorkEntryRoutes.getCompanyId req) eid job.id
         wid amt (decide (b.is_bank = some 1)) (WorkEntryRoutes.finalTier b ex) jno1
         b.job_no2 wdate b.note b.fees_collected false job.normal_price
         (job.normal_price * amt)
         (WorkEntryRoutes.resolvedWageRate db (WorkEntryRoutes.getCompanyId req) job
           (WorkEntryRoutes.finalTier b ex))
         (WorkEntryRoutes.resolvedWageRate db (WorkEntryRoutes.getCompanyId req) job
           (WorkEntryRoutes.finalTier b ex) * amt)) := by
    rw [updateWorkEntry_eq_updateLoaded db req eid b today ex wid jcode amt jno1
      wdate h0 hw hjc ha hj1 hwd hamt hfound]
    unfold WorkEntryRoutes.updateLoaded
    dsimp only
    rw [hjob]
    rcases hcr with h1 | h1 <;> rcases hwr with h2 | h2 <;>
      rcases hfees with h3 | ⟨fv, h3, hfv⟩ <;>
      first
        | (simp [h1, h2, h3, hperm]; done)
        | (simp [h1, h2, h3, hperm, hfv]; done)
  constructor
  · intro hbad
    rw [hred]
    rcases le_or_lt job.normal_price 0 with hp | hp
    · rw [if_pos hp]
    · rw [if_neg (not_le.mpr hp), if_pos (hbad.resolve_left (not_le.mpr hp))]
  · intro hp hwpos hnodup
    rw [hred, if_neg (not_le.mpr hp), if_neg (not_le.mpr hwpos)]
    have hchanges : (db.work_entries.filter (fun e =>
        decide (e.id = eid ∧ e.company_id = WorkEntryRoutes.getCompanyId req))).length
          ≠ 0 := by
      have hmemf : ex ∈ db.work_entries.filter (fun e =>
          decide (e.id = eid ∧ e.company_id = WorkEntryRoutes.getCompanyId req)) :=
        List.mem_filter.mpr ⟨hexmem, by simp [hexid, hexcid]⟩
      have hne := List.ne_nil_of_mem hmemf
      exact fun hlen => hne (List.eq_nil_of_length_eq_zero hlen)
    obtain ⟨db', r, hdu, hentries⟩ := doUpdate_ok_exists db
      (WorkEntryRoutes.getCompanyId req) eid job.id wid amt
      (decide (b.is_bank = some 1)) (WorkEntryRoutes.finalTier b ex) jno1 b.job_no2
      wdate b.note b.fees_collected false job.normal_price (job.normal_price * amt)
      (WorkEntryRoutes.resolvedWageRate db (WorkEntryRoutes.getCompanyId req) job
        (WorkEntryRoutes.finalTier b ex))
      (WorkEntryRoutes.resolvedWageRate db (WorkEntryRoutes.getCompanyId req) job
        (WorkEntryRoutes.finalTier b ex) * amt) hchanges hnodup
    refine ⟨db', r, hdu, ?_⟩
    rw [hentries]
    refine ⟨_, List.mem_map_of_mem _ hexmem, ?_⟩
    rw [if_pos (by simp [hexid, hexcid])]
    exact ⟨hexid, rfl, rfl, rfl, rfl⟩

/-- Witness for C3: restricted-mode update of `entry1` with hours 4 against
job base price 30 and tier-5 wage 12 stores customerTotal 120 and
wageTotal 48. -/
theorem restricted_mode_rate_resolution_witness :
    ∃ db' r, WorkEntryRoutes.updateWorkEntry updateDb (reqOf staffUser) 1
        noRateBody 100 = Except.ok (db', r) ∧
      ∃ e ∈ db'.work_entries, e.id = 1 ∧ e.customer_rate = 30 ∧
        e.customer_total = 120 ∧ e.wage_rate = 12 ∧ e.wage_total = 48 := by
  obtain ⟨db', r, hok, e, hmem, h1, h2, h3, h4, h5⟩ :=
    (restricted_mode_rate_resolution updateDb (reqOf staffUser) 1 noRateBody 100
      entry1 ⟨1, 1, "J1", "massage", 30, 1⟩ 7 "J1" 4 "A1" 100
      (by decide) rfl rfl rfl rfl rfl (by norm_num) (by decide) (by decide)
      (by decide) (Or.inl rfl) (Or.inl rfl) (Or.inl rfl)).2
      (by norm_num) (by decide) (by decide)
  refine ⟨db', r, hok, e, hmem, h1, h2, ?_, h4, ?_⟩
  · rw [h3]; show (30 : ℚ) * 4 = 120; norm_num
  · rw [h5]; show (12 : ℚ) * 4 = 48; norm_num

theorem find?_eq_some_of_unique {α : Type} {l : List α} {p : α → Bool} {a : α}
    (ha : a ∈ l) (hpa : p a = true)
    (huniq : ∀ x ∈ l, p x = true → x = a) :
    l.find? p = some a := by
  induction l with
  | nil => cases ha
  | cons hd tl ih =>
    by_cases h : p hd = true
    · have : hd = a := huniq hd (List.mem_cons_self hd tl) h
      subst this
      exact List.find?_cons_of_pos _ h
    · rw [List.find?_cons_of_neg _ h]
      rcases List.mem_cons.mp ha with rfl | hmem
      · exact absurd hpa h
      · exact ih hmem (fun x hx hpx => huniq x (List.mem_cons_of_mem _ hx) hpx)

/-- `doUpdate` never reports `OutOfEditWindow`: that error can only come from
the window-filtered load. -/
theorem doUpdate_ne_out_of_window {db : DB} {cid eid jid wid : Nat} {hrs : ℚ}
    {ib : Bool} {tier : Option Nat} {j1 : String} {j2 : Option String}
    {wd : Int} {nt : Option String} {rfees : Option ℚ} {cer : Bool}
    {cR cT wR wT : ℚ} :
    WorkEntryRoutes.doUpdate db cid eid jid wid hrs ib tier j1 j2 wd nt rfees
      cer cR cT wR wT ≠ Except.error ApiError.OutOfEditWindow := by
  unfold WorkEntryRoutes.doUpdate
  dsimp only
  split
  · simp
  split
  · simp
  simp

/-- `updateLoaded` never reports `OutOfEditWindow` either. -/
theorem updateLoaded_ne_out_of_window (db : DB) (req : Req) (cid eid : Nat)
    (b : WorkEntryRoutes.UpdateBody) (ex : WorkEntryRow) (wid : Nat)
    (jcode : String) (amt : ℚ) (jno1 : String) (wdate : Int) :
    WorkEntryRoutes.updateLoaded db req cid eid b ex wid jcode amt jno1 wdate ≠
      Except.error ApiError.OutOfEditWindow := by
  unfold WorkEntryRoutes.updateLoaded
  dsimp only
  split
  · simp
  rcases hcr : b.customer_rate with _ | cr <;>
    rcases hwr : b.wage_rate with _ | wr <;>
    rcases hfc : b.fees_collected with _ | fv <;>
    dsimp only <;>
    split_ifs <;>
    first
      | exact doUpdate_ne_out_of_window
      | simp

/-- C7: edit-window gating on update.  For a well-formed update request
whose target row exists in the resolved company, the handler fails with
`OutOfEditWindow` exactly when the row's `work_date` fails the (inclusive)
window filter `work_date >= today − windowDays`; by `withinWindow`'s
definition a `none` window accepts every date, so a null window never yields
`OutOfEditWindow`, and a within-window row proceeds past the gate. -/
theorem edit_window_gates_update (db : DB) (req : Req) (eid : Nat)
    (b : WorkEntryRoutes.UpdateBody) (today : Int) (e : WorkEntryRow)
    (wid : Nat) (jcode : String) (amt : ℚ) (jno1 : String) (wdate : Int)
    (h0 : ¬(eid = 0 ∨ WorkEntryRoutes.getCompanyId req = 0))
    (hw : b.worker_id = some wid) (hjc : b.job_code = some jcode)
    (ha : b.amount = some amt) (hj1 : b.job_no1 = some jno1)
    (hwd : b.work_date = some wdate) (hamt : ¬ amt ≤ 0)
    (he : e ∈ db.work_entries) (heid : e.id = eid)
    (hec : e.company_id = WorkEntryRoutes.getCompanyId req)
    (huniq : ∀ x ∈ db.work_entries, x.id = eid → x = e) :
    WorkEntryRoutes.updateWorkEntry db req eid b today =
        Except.error ApiError.OutOfEditWindow ↔
      WorkEntryRoutes.withinWindow e.work_date
        (WorkEntryRoutes.getDaysLimitForUser db req.session_user) today = false := by
  constructor
  · intro hres
    by_contra hwin
    have hwin' : WorkEntryRoutes.withinWindow e.work_date
        (WorkEntryRoutes.getDaysLimitForUser db req.session_user) today = true := by
      cases hb : WorkEntryRoutes.withinWindow e.work_date
        (WorkEntryRoutes.getDaysLimitForUser db req.session_user) today <;> simp_all
    have hfind : db.work_entries.find? (fun x =>
        decide (x.id = eid ∧ x.company_id = WorkEntryRoutes.getCompanyId req) &&
        WorkEntryRoutes.withinWindow x.work_date
          (WorkEntryRoutes.getDaysLimitForUser db req.session_user) today)
        = some e := by
      refine find?_eq_some_of_unique he (by simp [heid, hec, hwin']) ?_
      intro x hx hpx
      simp only [Bool.and_eq_true, decide_eq_true_eq] at hpx
      exact huniq x hx hpx.1.1
    rw [updateWorkEntry_eq_updateLoaded db req eid b today e wid jcode amt jno1
      wdate h0 hw hjc ha hj1 hwd hamt hfind] at hres
    exact updateLoaded_ne_out_of_window db req (WorkEntryRoutes.getCompanyId req)
      eid b e wid jcode amt jno1 wdate hres
  · intro hwin
    have hfind : db.work_entries.find? (fun x =>
        decide (x.id = eid ∧ x.company_id = WorkEntryRoutes.getCompanyId req) &&
        WorkEntryRoutes.withinWindow x.work_date
          (WorkEntryRoutes.getDaysLimitForUser db req.session_user) today)
        = none := by
      rw [List.find?_eq_none]
      intro x hx
      by_cases hxid : x.id = eid
      · have hxe : x = e := huniq x hx hxid
        subst hxe
        simp [hwin]
      · simp [hxid]
    unfold WorkEntryRoutes.updateWorkEntry
    dsimp only
    rw [if_neg h0, hw, hjc, ha, hj1, hwd]
    dsimp only
    rw [if_neg hamt, hfind]

/-- Witness for C7: with a 30-day role window, updating the 40-day-old entry
(work date day 60, reference date day 100) fails with `OutOfEditWindow`. -/
theorem edit_window_gates_update_witness :
    WorkEntryRoutes.updateWorkEntry oldEntryDb (reqOf staffUser) 1 noRateBody 100 =
      Except.error ApiError.OutOfEditWindow :=
  (edit_window_gates_update oldEntryDb (reqOf staffUser) 1 noRateBody 100
    { entry1 with work_date := 60 } 7 "J1" 4 "A1" 100
    (by decide) rfl rfl rfl rfl rfl (by norm_num) (by decide) (by decide)
    (by decide) (by decide)).mpr (by decide)
